import Mathlib

/-!
# WebSocket chat relay (`hello-world/main.go`)

A shallow embedding of the Lambda handler of the chat relay: the router
`handler`, the lifecycle handlers `handleConnect` / `handleDisconnect`, the
broadcast `handleMessage` and `handleDefault`.

The three collaborators of the program are modelled explicitly:

* the DynamoDB table named by `TABLE_NAME`, as the list of its items (one item
  per partition key `connectionId`); a `Scan` call returns one result page,
  which can be a strict prefix of the table;
* the API Gateway management API (`PostToConnection`), as a recorded call whose
  outcome is chosen by the environment;
* `encoding/json`, `time.Now` and the process environment, as fields of `Env`.

Every handler returns an `Outcome`: the Go return pair, the table after the
invocation, the collaborator calls it issued (in order) and the lines it logged.
-/

namespace WsChat

/-! ## Data model -/

/-- A non-nil Go `error` value. A nil error is `none : Option Error`. -/
structure Error where
  msg : String
deriving DecidableEq, Repr

/-- The `Message` struct (main.go lines 24-29). -/
structure Message where
  Action : String
  ConnectionID : String
  Content : String
  Timestamp : String
deriving DecidableEq, Repr

/-- The fields of `events.APIGatewayWebsocketProxyRequestContext` the program reads. -/
structure APIGatewayWebsocketProxyRequestContext where
  EventType : String
  ConnectionID : String
deriving DecidableEq, Repr

/-- The fields of `events.APIGatewayWebsocketProxyRequest` the program reads. -/
structure APIGatewayWebsocketProxyRequest where
  RequestContext : APIGatewayWebsocketProxyRequestContext
  Body : String
deriving DecidableEq, Repr

/-- The field of `events.APIGatewayProxyResponse` the program sets. -/
structure APIGatewayProxyResponse where
  StatusCode : Int
deriving DecidableEq, Repr

/-- One item of the connection table: its attribute `connectionId` (type `S`),
which is the partition key of the table. -/
structure Item where
  connectionId : String
deriving DecidableEq, Repr

/-- Contents of the DynamoDB table `TABLE_NAME`. -/
abbrev Table := List Item

/-- A call issued to a collaborator (DynamoDB or the API Gateway management API). -/
inductive Call where
  | putItem (tableName : String) (item : Item)
  | deleteItem (tableName : String) (connectionId : String)
  | scan (tableName : String)
  | postToConnection (connectionId : String) (data : String)
deriving DecidableEq, Repr

/-- An argument of a `log.Printf` call. -/
inductive LogArg where
  | str (s : String)
  | req (r : APIGatewayWebsocketProxyRequest)
  | err (e : Error)
deriving DecidableEq, Repr

/-- One logged line: the format string of the `log.Printf` / `log.Println`
call and its arguments. -/
structure LogLine where
  fmt : String
  args : List LogArg
deriving DecidableEq, Repr

/-- Everything outside the program that an invocation depends on. -/
structure Env where
  /-- Value of `os.Getenv("TABLE_NAME")`. -/
  tableName : String
  /-- The function `json.Unmarshal([]byte(body), &msg)` on a zero `Message`:
  the decoded message, or the decoder's error. -/
  unmarshal : String → Except Error Message
  /-- The JSON string encoder of `encoding/json` (quotes and escapes a Go string). -/
  quote : String → String
  /-- The reading of `time.Now()` during the invocation. -/
  now : Nat
  /-- The function `Time.Format(time.RFC3339)`. -/
  rfc3339 : Nat → String
  /-- Outcome of a DynamoDB call: `none` when it succeeds, `some e` when it
  returns the error `e`. -/
  ddbFault : Call → Option Error
  /-- Outcome of the `k`-th `PostToConnection` call of an invocation (counted
  from 0), addressed to the given connection id. -/
  postFault : Nat → String → Option Error
  /-- Number of items that the first result page of a `Scan` of the given
  table holds (DynamoDB ends a page once it has read 1 MB of data). -/
  scanPage : Table → Nat

/-- What one handler invocation returns and does. -/
structure Outcome where
  /-- First component of the Go return pair. -/
  response : APIGatewayProxyResponse
  /-- Second component of the Go return pair (`none` is a nil error). -/
  err : Option Error
  /-- The table after the invocation. -/
  table : Table
  /-- Collaborator calls issued by the invocation, in order. -/
  calls : List Call
  /-- Lines logged by the invocation, in order. -/
  logs : List LogLine
deriving DecidableEq, Repr

/-! ## Collaborators -/

/-- The call `ddb.PutItem`: creates the item, or replaces the item that has the
same partition key. A failing call leaves the table as it was. -/
def PutItem (fault : Option Error) (tbl : Table) (item : Item) : Except Error Table :=
  match fault with
  | some e => .error e
  | none => .ok (tbl.filter (fun it => it.connectionId != item.connectionId) ++ [item])

/-- The call `ddb.DeleteItem`: deletes the item with the given partition key;
deleting a key that is not in the table succeeds and changes nothing. -/
def DeleteItem (fault : Option Error) (tbl : Table) (connectionId : String) :
    Except Error Table :=
  match fault with
  | some e => .error e
  | none => .ok (tbl.filter (fun it => it.connectionId != connectionId))

/-- One call `ddb.Scan` without filter and without `ExclusiveStartKey`: the
items of the first result page (`result.Items`), that is the first `page` items
of the table. The items beyond the page are reachable only by further calls
that pass `LastEvaluatedKey`, which the program never issues. -/
def Scan (fault : Option Error) (page : Nat) (tbl : Table) : Except Error (List Item) :=
  match fault with
  | some e => .error e
  | none => .ok (tbl.take page)

/-- The call `json.Marshal(msg)` for a `Message`: a JSON object with the four
keys of the struct tags, in field order. Every field is a string, so the
encoder has no failing case. -/
def jsonMarshal (quote : String → String) (msg : Message) : Except Error String :=
  .ok ("\x7b\"action\":" ++ quote msg.Action ++
       ",\"connectionId\":" ++ quote msg.ConnectionID ++
       ",\"content\":" ++ quote msg.Content ++
       ",\"timestamp\":" ++ quote msg.Timestamp ++ "\x7d")

/-! ## Handlers -/

/-- Source function `handleConnect` (main.go lines 74-96). -/
def handleConnect (env : Env) (tbl : Table) (req : APIGatewayWebsocketProxyRequest) :
    Outcome :=
  let connectionID := req.RequestContext.ConnectionID
  let log1 : LogLine := ⟨"ConnectionID: %s", [.str connectionID]⟩
  let item : Item := ⟨connectionID⟩
  let call := Call.putItem env.tableName item
  match PutItem (env.ddbFault call) tbl item with
  | .error err =>
    { response := ⟨500⟩, err := some err, table := tbl, calls := [call],
      logs := [log1, ⟨"Failed to add connection: %s", [.err err]⟩] }
  | .ok tbl1 =>
    { response := ⟨200⟩, err := none, table := tbl1, calls := [call], logs := [log1] }

/-- Source function `handleDisconnect` (main.go lines 154-172). -/
def handleDisconnect (env : Env) (tbl : Table) (req : APIGatewayWebsocketProxyRequest) :
    Outcome :=
  let connectionID := req.RequestContext.ConnectionID
  let call := Call.deleteItem env.tableName connectionID
  match DeleteItem (env.ddbFault call) tbl connectionID with
  | .error err =>
    { response := ⟨500⟩, err := some err, table := tbl, calls := [call],
      logs := [⟨"Failed to delete connection: %s", [.err err]⟩] }
  | .ok tbl1 =>
    { response := ⟨200⟩, err := none, table := tbl1, calls := [call], logs := [] }

/-- Source function `handleDefault` (main.go lines 174-177). -/
def handleDefault (_env : Env) (tbl : Table) (req : APIGatewayWebsocketProxyRequest) :
    Outcome :=
  { response := ⟨200⟩, err := none, table := tbl, calls := [],
    logs := [⟨"Received unknown action: %v", [.req req]⟩] }

/-- The loop of `handleMessage` (main.go lines 132-147) over the remaining
scanned items; `k` is the number of `PostToConnection` calls already issued.
Returns the calls and the log lines of the remaining iterations. An error of
`PostToConnection` is logged and the loop goes on. -/
def fanOut (env : Env) (messageData : String) : Nat → List Item → List Call × List LogLine
  | _, [] => ([], [])
  | k, item :: rest =>
    let connID := item.connectionId
    let call := Call.postToConnection connID messageData
    let failed : List LogLine :=
      match env.postFault k connID with
      | some err =>
        [⟨"check point 4.4", []⟩,
         ⟨"Failed to post to connection %s: %s", [.str connID, .err err]⟩]
      | none => []
    let tail := fanOut env messageData (k + 1) rest
    (call :: tail.1,
     [⟨"check point 4.1", []⟩, ⟨"check point 4.2", []⟩, ⟨"check point 4.3", []⟩]
       ++ failed ++ [⟨"check point 4.5", []⟩] ++ tail.2)

/-- Source function `handleMessage` (main.go lines 98-152). -/
def handleMessage (env : Env) (tbl : Table) (req : APIGatewayWebsocketProxyRequest) :
    Outcome :=
  let logs1 : List LogLine :=
    [⟨"handleMessage: Received message: %s", [.str req.Body]⟩, ⟨"check point 1", []⟩]
  match env.unmarshal req.Body with
  | .error err =>
    { response := ⟨400⟩, err := some err, table := tbl, calls := [],
      logs := logs1 ++ [⟨"Failed to unmarshal message: %s", [.err err]⟩] }
  | .ok msg0 =>
    let logs2 := logs1 ++ [⟨"check point 2", []⟩]
    let msg1 : Message := { msg0 with Timestamp := env.rfc3339 env.now }
    let msg : Message := { msg1 with ConnectionID := req.RequestContext.ConnectionID }
    let scanCall := Call.scan env.tableName
    match Scan (env.ddbFault scanCall) (env.scanPage tbl) tbl with
    | .error err =>
      { response := ⟨500⟩, err := some err, table := tbl, calls := [scanCall],
        logs := logs2 ++ [⟨"Failed to scan connections: %s", [.err err]⟩] }
    | .ok items =>
      let logs3 := logs2 ++ [⟨"check point 3", []⟩]
      match jsonMarshal env.quote msg with
      | .error err =>
        { response := ⟨500⟩, err := some err, table := tbl, calls := [scanCall],
          logs := logs3 ++ [⟨"Failed to marshal message: %s", [.err err]⟩] }
      | .ok messageData =>
        let logs4 := logs3 ++ [⟨"check point 4", []⟩]
        let loop := fanOut env messageData 0 items
        { response := ⟨200⟩, err := none, table := tbl, calls := scanCall :: loop.1,
          logs := logs4 ++ loop.2 ++ [⟨"check point 5", []⟩] }

/-- Source function `handler` (main.go lines 40-72). -/
def handler (env : Env) (tbl : Table) (req : APIGatewayWebsocketProxyRequest) : Outcome :=
  let logs0 : List LogLine :=
    [⟨"Received event: %+v", [.req req]⟩, ⟨"Received request body: %s", [.str req.Body]⟩]
  let logged (o : Outcome) : Outcome := { o with logs := logs0 ++ o.logs }
  if req.RequestContext.EventType = "CONNECT" then
    logged (handleConnect env tbl req)
  else if req.RequestContext.EventType = "DISCONNECT" then
    logged (handleDisconnect env tbl req)
  else
    match env.unmarshal req.Body with
    | .error err =>
      { response := ⟨400⟩, err := some err, table := tbl, calls := [],
        logs := logs0 ++ [⟨"Failed to unmarshal message: %s", [.err err]⟩] }
    | .ok msg =>
      let logs1 : List LogLine := logs0 ++
        [⟨"Parsed message action: %s", [.str msg.Action]⟩,
         ⟨"Parsed message content: %s", [.str msg.Content]⟩,
         ⟨"Parsed message timestamp: %s", [.str msg.Timestamp]⟩,
         ⟨"Parsed message connectionId: %s", [.str msg.ConnectionID]⟩]
      let logged1 (o : Outcome) : Outcome := { o with logs := logs1 ++ o.logs }
      if msg.Action = "connect" then
        logged1 (handleConnect env tbl req)
      else if msg.Action = "message" then
        logged1 (handleMessage env tbl req)
      else if msg.Action = "disconnect" then
        logged1 (handleDisconnect env tbl req)
      else
        logged1 (handleDefault env tbl req)

/-! ## Observations on an outcome -/

/-- The line `handleMessage` logs when a delivery fails. -/
def failureReport (connID : String) (err : Error) : LogLine :=
  ⟨"Failed to post to connection %s: %s", [.str connID, .err err]⟩

/-- The delivery-failure reports among logged lines. -/
def failureReports (logs : List LogLine) : List LogLine :=
  logs.filter (fun l => l.fmt = "Failed to post to connection %s: %s")

/-- The delivery attempts among collaborator calls: target and payload. -/
def deliveries (calls : List Call) : List (String × String) :=
  calls.filterMap fun c =>
    match c with
    | .postToConnection connID data => some (connID, data)
    | _ => none

/-- Whether a call writes the table. -/
def Call.isWrite : Call → Bool
  | .putItem _ _ => true
  | .deleteItem _ _ => true
  | _ => false

/-- The targets of the delivery attempts among collaborator calls, in order. -/
def deliveryTargets (calls : List Call) : List String :=
  (deliveries calls).map Prod.fst

/-! ## Sequences of lifecycle events -/

/-- A lifecycle event: an attach handled by `handleConnect` or a detach handled
by `handleDisconnect`, with the request that carries it. -/
inductive Lifecycle where
  | attach (req : APIGatewayWebsocketProxyRequest)
  | detach (req : APIGatewayWebsocketProxyRequest)
deriving DecidableEq, Repr

/-- The session a lifecycle event is about. -/
def Lifecycle.session : Lifecycle → String
  | .attach req => req.RequestContext.ConnectionID
  | .detach req => req.RequestContext.ConnectionID

/-- Whether a lifecycle event is an attach. -/
def Lifecycle.isAttach : Lifecycle → Bool
  | .attach _ => true
  | .detach _ => false

/-- The storage call the handler of a lifecycle event issues. -/
def Lifecycle.storageCall (tableName : String) : Lifecycle → Call
  | .attach req => .putItem tableName ⟨req.RequestContext.ConnectionID⟩
  | .detach req => .deleteItem tableName req.RequestContext.ConnectionID

/-- The invocation that handles one lifecycle event. -/
def lifecycleStep (env : Env) (tbl : Table) : Lifecycle → Outcome
  | .attach req => handleConnect env tbl req
  | .detach req => handleDisconnect env tbl req

/-- The table after a sequence of lifecycle events, handled one after the other. -/
def runLifecycle (env : Env) : Table → List Lifecycle → Table
  | tbl, [] => tbl
  | tbl, ev :: evs => runLifecycle env (lifecycleStep env tbl ev).table evs

/-- Whether the most recent event about session `id` in `evs` is an attach
(false when no event is about `id`). -/
def attachedAfter (evs : List Lifecycle) (id : String) : Bool :=
  match evs.reverse.find? (fun ev => ev.session = id) with
  | some ev => ev.isAttach
  | none => false

/-! ## Test doubles used by the concrete scenarios -/

/-- Request body of a publish with content `hi`. -/
def hiBody : String := "\x7b\"action\":\"message\",\"content\":\"hi\"\x7d"

/-- Request body of a publish with content `bye`. -/
def byeBody : String := "\x7b\"action\":\"message\",\"content\":\"bye\"\x7d"

/-- Request body of a publish with content `hi` that also carries a sender and
a timestamp of its own. -/
def forgedBody : String :=
  "\x7b\"action\":\"message\",\"connectionId\":\"forged\",\"content\":\"hi\",\"timestamp\":\"1999\"\x7d"

/-- Request body with action `connect`. -/
def connectBody : String := "\x7b\"action\":\"connect\"\x7d"

/-- Request body with action `disconnect`. -/
def disconnectBody : String := "\x7b\"action\":\"disconnect\"\x7d"

/-- Request body with action `attach`. -/
def attachBody : String := "\x7b\"action\":\"attach\"\x7d"

/-- Request body with action `frobnicate`. -/
def frobnicateBody : String := "\x7b\"action\":\"frobnicate\"\x7d"

/-- A decoder that knows a handful of request bodies and rejects the rest. -/
def sampleUnmarshal (body : String) : Except Error Message :=
  if body = hiBody then
    .ok ⟨"message", "", "hi", ""⟩
  else if body = byeBody then
    .ok ⟨"message", "", "bye", ""⟩
  else if body = forgedBody then
    .ok ⟨"message", "forged", "hi", "1999"⟩
  else if body = connectBody then
    .ok ⟨"connect", "", "", ""⟩
  else if body = disconnectBody then
    .ok ⟨"disconnect", "", "", ""⟩
  else if body = attachBody then
    .ok ⟨"attach", "", "", ""⟩
  else if body = frobnicateBody then
    .ok ⟨"frobnicate", "", "", ""⟩
  else
    .error ⟨"invalid character"⟩

/-- Quoting of strings that need no escape. -/
def sampleQuote (s : String) : String := "\"" ++ s ++ "\""

/-- An environment in which every collaborator call succeeds. -/
def sampleEnv : Env where
  tableName := "connections"
  unmarshal := sampleUnmarshal
  quote := sampleQuote
  now := 0
  rfc3339 := fun _ => "1970-01-01T00:00:00Z"
  ddbFault := fun _ => none
  postFault := fun _ _ => none
  scanPage := fun _ => 100

/-- An environment in which every storage call succeeds and every delivery to
connection `S2` fails as gone. -/
def goneEnv : Env :=
  { sampleEnv with
    postFault := fun _ connID => if connID = "S2" then some ⟨"GoneException"⟩ else none }

/-- An environment in which every storage call succeeds and every delivery
fails as gone. -/
def allGoneEnv : Env :=
  { sampleEnv with postFault := fun _ _ => some ⟨"GoneException"⟩ }

/-- An environment in which every call succeeds and a result page of a scan
holds two items. -/
def smallPageEnv : Env :=
  { sampleEnv with scanPage := fun _ => 2 }

/-- An environment in which puts and deletes succeed and every scan fails. -/
def scanDownEnv : Env :=
  { sampleEnv with
    ddbFault := fun c =>
      match c with
      | .scan _ => some ⟨"ProvisionedThroughputExceededException"⟩
      | _ => none }

/-- An environment in which every storage call fails. -/
def downEnv : Env :=
  { sampleEnv with ddbFault := fun _ => some ⟨"ProvisionedThroughputExceededException"⟩ }

/-- A request with the given event type, connection id and body. -/
def mkReq (eventType connectionID body : String) : APIGatewayWebsocketProxyRequest :=
  ⟨⟨eventType, connectionID⟩, body⟩

/-! ## The fan-out loop -/

theorem fanOut_calls (env : Env) (data : String) (items : List Item) (k : Nat) :
    (fanOut env data k items).1 =
      items.map (fun it => Call.postToConnection it.connectionId data) := by
  induction items generalizing k with
  | nil => rfl
  | cons it rest ih => simp [fanOut, ih]

theorem fanOut_reports (env : Env) (data : String) (items : List Item) (k : Nat) :
    failureReports (fanOut env data k items).2 =
      (items.enumFrom k).filterMap
        (fun p => (env.postFault p.1 p.2.connectionId).map (failureReport p.2.connectionId)) := by
  induction items generalizing k with
  | nil => rfl
  | cons it rest ih =>
    have ih1 := ih (k + 1)
    unfold failureReports at ih1 ⊢
    cases h : env.postFault k it.connectionId <;>
      simp [fanOut, List.enumFrom, h, ih1, failureReport, List.filter_cons]

theorem deliveries_map_post (data : String) (items : List Item) :
    deliveries (items.map (fun it => Call.postToConnection it.connectionId data)) =
      items.map (fun it => (it.connectionId, data)) := by
  induction items with
  | nil => rfl
  | cons it rest ih =>
    unfold deliveries at ih ⊢
    simp [List.filterMap_cons, ih]

theorem Scan_ok_iff (fault : Option Error) (page : Nat) (tbl : Table) (items : List Item) :
    Scan fault page tbl = .ok items ↔ fault = none ∧ items = tbl.take page := by
  cases fault with
  | some e => simp [Scan]
  | none =>
    simp only [Scan, Except.ok.injEq, true_and]
    exact eq_comm

theorem handleMessage_ok (env : Env) (tbl : Table) (req : APIGatewayWebsocketProxyRequest)
    (msg0 : Message) (items : List Item) (hparse : env.unmarshal req.Body = .ok msg0)
    (hscan : Scan (env.ddbFault (.scan env.tableName)) (env.scanPage tbl) tbl = .ok items) :
    ∃ data logs,
      jsonMarshal env.quote
        ⟨msg0.Action, req.RequestContext.ConnectionID, msg0.Content,
          env.rfc3339 env.now⟩ = .ok data ∧
      handleMessage env tbl req =
        { response := ⟨200⟩, err := none, table := tbl,
          calls := .scan env.tableName :: (fanOut env data 0 items).1,
          logs := logs ++ (fanOut env data 0 items).2 ++ [⟨"check point 5", []⟩] } ∧
      failureReports logs = [] := by
  refine ⟨_, [⟨"handleMessage: Received message: %s", [.str req.Body]⟩,
    ⟨"check point 1", []⟩, ⟨"check point 2", []⟩, ⟨"check point 3", []⟩,
    ⟨"check point 4", []⟩], rfl, ?_, ?_⟩
  · simp only [handleMessage, hparse, hscan, jsonMarshal]
    rfl
  · simp [failureReports]

/-! ## Claims -/

/-- C1: with a parsable body and a successful scan whose result (the registry
snapshot) is `items`, `handleMessage` issues the scan and then exactly one
`PostToConnection` per item of the snapshot, in order, the item of the sender
included; the payload of every one of them is the serialization `json.Marshal`
gives for the stamped message (action and content of the body, sender the
connection id of the event, timestamp the clock reading in RFC 3339); it logs
exactly one failure report per failing delivery, for that recipient and with
that error; and it returns status 200 with a nil error, whatever deliveries
failed. -/
theorem C1_fanout_attempts_all (env : Env) (tbl : Table)
    (req : APIGatewayWebsocketProxyRequest) (msg0 : Message) (items : List Item)
    (hparse : env.unmarshal req.Body = .ok msg0)
    (hscan : Scan (env.ddbFault (.scan env.tableName)) (env.scanPage tbl) tbl = .ok items) :
    ∃ data : String,
      jsonMarshal env.quote
        { Action := msg0.Action, ConnectionID := req.RequestContext.ConnectionID,
          Content := msg0.Content, Timestamp := env.rfc3339 env.now } = .ok data ∧
      (handleMessage env tbl req).calls =
        .scan env.tableName ::
          items.map (fun it => Call.postToConnection it.connectionId data) ∧
      deliveries (handleMessage env tbl req).calls =
        items.map (fun it => (it.connectionId, data)) ∧
      (deliveries (handleMessage env tbl req).calls).length = items.length ∧
      failureReports (handleMessage env tbl req).logs =
        items.enum.filterMap
          (fun p => (env.postFault p.1 p.2.connectionId).map
            (failureReport p.2.connectionId)) ∧
      (failureReports (handleMessage env tbl req).logs).length =
        (items.enum.filter (fun p => (env.postFault p.1 p.2.connectionId).isSome)).length ∧
      (handleMessage env tbl req).response.StatusCode = 200 ∧
      (handleMessage env tbl req).err = none := by
  obtain ⟨data, logs, hdata, hout, hlogs⟩ :=
    handleMessage_ok env tbl req msg0 items hparse hscan
  have hrep : failureReports (handleMessage env tbl req).logs =
      items.enum.filterMap
        (fun p => (env.postFault p.1 p.2.connectionId).map
          (failureReport p.2.connectionId)) := by
    rw [hout]
    have h1 := fanOut_reports env data items 0
    unfold failureReports at h1 hlogs ⊢
    simp only [List.filter_append, hlogs, h1, List.enum]
    simp
  have hdel : deliveries (handleMessage env tbl req).calls =
      items.map (fun it => (it.connectionId, data)) := by
    rw [hout]
    simp only [fanOut_calls]
    rw [← deliveries_map_post]
    simp [deliveries]
  refine ⟨data, hdata, ?_, hdel, ?_, hrep, ?_, ?_, ?_⟩
  · rw [hout]; simp [fanOut_calls]
  · rw [hdel]; simp
  · rw [hrep, List.length_filterMap_eq_countP, List.countP_eq_length_filter]
    simp
  · rw [hout]
  · rw [hout]

/-- Witness for C1 over the snapshot S1, S2, S3 with S2 gone: three attempts,
each with the serialized stamped message, one failure report, status 200. -/
theorem C1_fanout_attempts_all_witness :
    goneEnv.unmarshal (mkReq "MESSAGE" "S1" hiBody).Body = .ok ⟨"message", "", "hi", ""⟩ ∧
    Scan (goneEnv.ddbFault (.scan goneEnv.tableName))
      (goneEnv.scanPage [⟨"S1"⟩, ⟨"S2"⟩, ⟨"S3"⟩]) [⟨"S1"⟩, ⟨"S2"⟩, ⟨"S3"⟩] =
      .ok [⟨"S1"⟩, ⟨"S2"⟩, ⟨"S3"⟩] ∧
    deliveries (handleMessage goneEnv [⟨"S1"⟩, ⟨"S2"⟩, ⟨"S3"⟩]
      (mkReq "MESSAGE" "S1" hiBody)).calls =
      [("S1", "\x7b\"action\":\"message\",\"connectionId\":\"S1\",\"content\":\"hi\",\"timestamp\":\"1970-01-01T00:00:00Z\"\x7d"),
       ("S2", "\x7b\"action\":\"message\",\"connectionId\":\"S1\",\"content\":\"hi\",\"timestamp\":\"1970-01-01T00:00:00Z\"\x7d"),
       ("S3", "\x7b\"action\":\"message\",\"connectionId\":\"S1\",\"content\":\"hi\",\"timestamp\":\"1970-01-01T00:00:00Z\"\x7d")] ∧
    failureReports (handleMessage goneEnv [⟨"S1"⟩, ⟨"S2"⟩, ⟨"S3"⟩]
      (mkReq "MESSAGE" "S1" hiBody)).logs = [failureReport "S2" ⟨"GoneException"⟩] ∧
    (handleMessage goneEnv [⟨"S1"⟩, ⟨"S2"⟩, ⟨"S3"⟩]
      (mkReq "MESSAGE" "S1" hiBody)).response.StatusCode = 200 ∧
    (handleMessage goneEnv [⟨"S1"⟩, ⟨"S2"⟩, ⟨"S3"⟩]
      (mkReq "MESSAGE" "S1" hiBody)).err = none := by
  obtain ⟨data, h1, _, h3, _, h5, _, h7, h8⟩ :=
    C1_fanout_attempts_all goneEnv [⟨"S1"⟩, ⟨"S2"⟩, ⟨"S3"⟩] (mkReq "MESSAGE" "S1" hiBody)
      ⟨"message", "", "hi", ""⟩ [⟨"S1"⟩, ⟨"S2"⟩, ⟨"S3"⟩] rfl rfl
  refine ⟨rfl, rfl, ?_, by rw [h5]; decide, h7, h8⟩
  rw [h3]
  cases h1
  decide

/-- C3: when the body does not decode as a `Message`, `handleMessage` returns
status 400 with the decoder's (non-nil) error, issues no collaborator call at
all (no table read, no table write, no delivery attempt) and leaves the table
as it was; `handler` does the same on every event whose event type is neither
CONNECT nor DISCONNECT. -/
theorem C3_parse_failure_isolated (env : Env) (tbl : Table)
    (req : APIGatewayWebsocketProxyRequest) (e : Error)
    (hparse : env.unmarshal req.Body = .error e) :
    ((handleMessage env tbl req).response.StatusCode = 400 ∧
      (handleMessage env tbl req).err = some e ∧
      (handleMessage env tbl req).calls = [] ∧
      (handleMessage env tbl req).table = tbl) ∧
    (req.RequestContext.EventType ≠ "CONNECT" →
      req.RequestContext.EventType ≠ "DISCONNECT" →
      (handler env tbl req).response.StatusCode = 400 ∧
      (handler env tbl req).err = some e ∧
      (handler env tbl req).calls = [] ∧
      (handler env tbl req).table = tbl) := by
  constructor
  · simp [handleMessage, hparse]
  · intro h1 h2
    simp [handler, h1, h2, hparse]

/-- Witness for C3: a body that is not JSON, on a data event. -/
theorem C3_parse_failure_isolated_witness :
    sampleEnv.unmarshal (mkReq "MESSAGE" "S1" "not json").Body =
      .error ⟨"invalid character"⟩ ∧
    (mkReq "MESSAGE" "S1" "not json").RequestContext.EventType ≠ "CONNECT" ∧
    (mkReq "MESSAGE" "S1" "not json").RequestContext.EventType ≠ "DISCONNECT" ∧
    (handleMessage sampleEnv [⟨"S1"⟩] (mkReq "MESSAGE" "S1" "not json")).calls = [] ∧
    (handler sampleEnv [⟨"S1"⟩] (mkReq "MESSAGE" "S1" "not json")).response.StatusCode = 400 ∧
    (handler sampleEnv [⟨"S1"⟩] (mkReq "MESSAGE" "S1" "not json")).calls = [] :=
  have h := C3_parse_failure_isolated sampleEnv [⟨"S1"⟩] (mkReq "MESSAGE" "S1" "not json")
    ⟨"invalid character"⟩ rfl
  ⟨rfl, by decide, by decide, h.1.2.2.1, (h.2 (by decide) (by decide)).1,
    (h.2 (by decide) (by decide)).2.2.1⟩

/-- C4: for a body that decodes to `msg0`, an event from connection `c` and a
clock reading `t`, the payload `handleMessage` delivers is the serialization of
the message with action and content of `msg0`, sender `c` and timestamp
`rfc3339 t`: every delivery carries it, after a successful scan it goes to every
item of the scanned page, and a second body that decodes to the same action and
content (whatever its sender and timestamp) leads to the same calls. -/
theorem C4_stamping_overrides_body (env : Env) (tbl : Table)
    (req : APIGatewayWebsocketProxyRequest) (msg0 : Message)
    (hparse : env.unmarshal req.Body = .ok msg0) :
    ∃ data : String,
      jsonMarshal env.quote
        { Action := msg0.Action, ConnectionID := req.RequestContext.ConnectionID,
          Content := msg0.Content, Timestamp := env.rfc3339 env.now } = .ok data ∧
      (∀ connID d, Call.postToConnection connID d ∈ (handleMessage env tbl req).calls →
        d = data) ∧
      (env.ddbFault (.scan env.tableName) = none →
        deliveries (handleMessage env tbl req).calls =
          (tbl.take (env.scanPage tbl)).map (fun it => (it.connectionId, data))) ∧
      (∀ (req2 : APIGatewayWebsocketProxyRequest) (msg2 : Message),
        env.unmarshal req2.Body = .ok msg2 →
        msg2.Action = msg0.Action → msg2.Content = msg0.Content →
        req2.RequestContext.ConnectionID = req.RequestContext.ConnectionID →
        (handleMessage env tbl req2).calls = (handleMessage env tbl req).calls ∧
        (handleMessage env tbl req2).response = (handleMessage env tbl req).response ∧
        (handleMessage env tbl req2).err = (handleMessage env tbl req).err) := by
  refine ⟨_, rfl, ?_, ?_, ?_⟩
  · intro connID d hmem
    cases hs : env.ddbFault (.scan env.tableName) with
    | some e => simp [handleMessage, hparse, hs, Scan] at hmem
    | none =>
      simp only [handleMessage, hparse, hs, Scan, jsonMarshal, fanOut_calls] at hmem
      simp only [List.mem_cons, List.mem_map] at hmem
      rcases hmem with h | ⟨it, _, h⟩
      · cases h
      · cases h; rfl
  · intro hs
    simp only [handleMessage, hparse, hs, Scan, jsonMarshal, fanOut_calls]
    rw [← deliveries_map_post]
    simp [deliveries]
  · intro req2 msg2 hparse2 hA hC hid
    cases hs : env.ddbFault (.scan env.tableName) with
    | some e => simp [handleMessage, hparse, hparse2, hs, Scan]
    | none =>
      simp [handleMessage, hparse, hparse2, hs, Scan, jsonMarshal, fanOut_calls, hA, hC, hid]

/-- Witness for C4: a body with a forged sender and timestamp, sent from S1,
is delivered with sender S1 and the clock's timestamp, exactly like the same
publish without those fields. -/
theorem C4_stamping_overrides_body_witness :
    sampleEnv.unmarshal (mkReq "MESSAGE" "S1" forgedBody).Body =
      .ok ⟨"message", "forged", "hi", "1999"⟩ ∧
    deliveries (handleMessage sampleEnv [⟨"S1"⟩, ⟨"S2"⟩]
        (mkReq "MESSAGE" "S1" forgedBody)).calls =
      [("S1", "\x7b\"action\":\"message\",\"connectionId\":\"S1\",\"content\":\"hi\",\"timestamp\":\"1970-01-01T00:00:00Z\"\x7d"),
       ("S2", "\x7b\"action\":\"message\",\"connectionId\":\"S1\",\"content\":\"hi\",\"timestamp\":\"1970-01-01T00:00:00Z\"\x7d")] ∧
    (handleMessage sampleEnv [⟨"S1"⟩, ⟨"S2"⟩] (mkReq "MESSAGE" "S1" hiBody)).calls =
      (handleMessage sampleEnv [⟨"S1"⟩, ⟨"S2"⟩] (mkReq "MESSAGE" "S1" forgedBody)).calls := by
  obtain ⟨data, h1, _, h3, h4⟩ :=
    C4_stamping_overrides_body sampleEnv [⟨"S1"⟩, ⟨"S2"⟩] (mkReq "MESSAGE" "S1" forgedBody)
      ⟨"message", "forged", "hi", "1999"⟩ rfl
  refine ⟨rfl, ?_, (h4 (mkReq "MESSAGE" "S1" hiBody) ⟨"message", "", "hi", ""⟩
    rfl rfl rfl rfl).1⟩
  rw [h3 rfl]
  cases h1
  decide

/-- C5: when the storage call of a handler fails with error `e` (the put of
`handleConnect`, the delete of `handleDisconnect`, the scan of `handleMessage`
after a successful decode), the handler returns status 500 and the error `e`
itself; `handleMessage` then issues the scan and nothing else, so it makes no
delivery attempt. -/
theorem C5_storage_failure_propagates (env : Env) (tbl : Table)
    (req : APIGatewayWebsocketProxyRequest) (e : Error) :
    (env.ddbFault (.putItem env.tableName ⟨req.RequestContext.ConnectionID⟩) = some e →
      (handleConnect env tbl req).response.StatusCode = 500 ∧
      (handleConnect env tbl req).err = some e) ∧
    (env.ddbFault (.deleteItem env.tableName req.RequestContext.ConnectionID) = some e →
      (handleDisconnect env tbl req).response.StatusCode = 500 ∧
      (handleDisconnect env tbl req).err = some e) ∧
    (∀ msg0 : Message, env.unmarshal req.Body = .ok msg0 →
      env.ddbFault (.scan env.tableName) = some e →
      (handleMessage env tbl req).response.StatusCode = 500 ∧
      (handleMessage env tbl req).err = some e ∧
      (handleMessage env tbl req).calls = [.scan env.tableName] ∧
      deliveries (handleMessage env tbl req).calls = []) := by
  refine ⟨?_, ?_, ?_⟩
  · intro h
    simp [handleConnect, PutItem, h]
  · intro h
    simp [handleDisconnect, DeleteItem, h]
  · intro msg0 hparse h
    simp [handleMessage, hparse, Scan, h, deliveries]

/-- Witness for C5: every storage call fails in `downEnv`. -/
theorem C5_storage_failure_propagates_witness :
    (handleConnect downEnv [⟨"S2"⟩] (mkReq "CONNECT" "S1" "")).err =
      some ⟨"ProvisionedThroughputExceededException"⟩ ∧
    (handleDisconnect downEnv [⟨"S2"⟩] (mkReq "DISCONNECT" "S1" "")).response.StatusCode =
      500 ∧
    (handleMessage downEnv [⟨"S2"⟩] (mkReq "MESSAGE" "S1" hiBody)).response.StatusCode =
      500 ∧
    deliveries (handleMessage downEnv [⟨"S2"⟩] (mkReq "MESSAGE" "S1" hiBody)).calls = [] :=
  ⟨((C5_storage_failure_propagates downEnv [⟨"S2"⟩] (mkReq "CONNECT" "S1" "")
      ⟨"ProvisionedThroughputExceededException"⟩).1 rfl).2,
   ((C5_storage_failure_propagates downEnv [⟨"S2"⟩] (mkReq "DISCONNECT" "S1" "")
      ⟨"ProvisionedThroughputExceededException"⟩).2.1 rfl).1,
   ((C5_storage_failure_propagates downEnv [⟨"S2"⟩] (mkReq "MESSAGE" "S1" hiBody)
      ⟨"ProvisionedThroughputExceededException"⟩).2.2 ⟨"message", "", "hi", ""⟩ rfl rfl).1,
   ((C5_storage_failure_propagates downEnv [⟨"S2"⟩] (mkReq "MESSAGE" "S1" hiBody)
      ⟨"ProvisionedThroughputExceededException"⟩).2.2 ⟨"message", "", "hi", ""⟩ rfl rfl).2.2.2⟩

/-- C9: `handleMessage` never writes the table. In every environment (any
decoder result, any scan outcome, any pattern of delivery failures) the table
after the call is the table before it, none of the calls issued is a put or a
delete, the status is 200, 400 or 500, and every item of the table, one whose
delivery failed included, is still in the table afterwards. -/
theorem C9_publish_never_writes (env : Env) (tbl : Table)
    (req : APIGatewayWebsocketProxyRequest) :
    (handleMessage env tbl req).table = tbl ∧
    (∀ c ∈ (handleMessage env tbl req).calls, c.isWrite = false) ∧
    ((handleMessage env tbl req).response.StatusCode = 200 ∨
      (handleMessage env tbl req).response.StatusCode = 400 ∨
      (handleMessage env tbl req).response.StatusCode = 500) ∧
    (∀ it ∈ tbl, it ∈ (handleMessage env tbl req).table) := by
  have htable : (handleMessage env tbl req).table = tbl := by
    cases hp : env.unmarshal req.Body with
    | error e => simp [handleMessage, hp]
    | ok msg0 =>
      cases hs : env.ddbFault (.scan env.tableName) with
      | some e => simp [handleMessage, hp, hs, Scan]
      | none => simp [handleMessage, hp, hs, Scan, jsonMarshal]
  refine ⟨htable, ?_, ?_, ?_⟩
  · intro c hc
    cases hp : env.unmarshal req.Body with
    | error e => simp [handleMessage, hp] at hc
    | ok msg0 =>
      cases hs : env.ddbFault (.scan env.tableName) with
      | some e =>
        simp [handleMessage, hp, hs, Scan] at hc
        subst hc
        rfl
      | none =>
        simp only [handleMessage, hp, hs, Scan, jsonMarshal, fanOut_calls] at hc
        simp only [List.mem_cons, List.mem_map] at hc
        rcases hc with h | ⟨it, _, h⟩
        · subst h; rfl
        · subst h; rfl
  · cases hp : env.unmarshal req.Body with
    | error e => simp [handleMessage, hp]
    | ok msg0 =>
      cases hs : env.ddbFault (.scan env.tableName) with
      | some e => simp [handleMessage, hp, hs, Scan]
      | none => simp [handleMessage, hp, hs, Scan, jsonMarshal]
  · intro it hit
    rw [htable]
    exact hit

/-- Instance of C9: with every delivery failing as gone, the table after a
publish is the table before it. -/
theorem C9_publish_never_writes_witness :
    failureReports (handleMessage allGoneEnv [⟨"S1"⟩, ⟨"S2"⟩]
      (mkReq "MESSAGE" "S1" hiBody)).logs =
      [failureReport "S1" ⟨"GoneException"⟩, failureReport "S2" ⟨"GoneException"⟩] ∧
    (handleMessage allGoneEnv [⟨"S1"⟩, ⟨"S2"⟩] (mkReq "MESSAGE" "S1" hiBody)).table =
      [⟨"S1"⟩, ⟨"S2"⟩] :=
  ⟨by decide,
    (C9_publish_never_writes allGoneEnv [⟨"S1"⟩, ⟨"S2"⟩] (mkReq "MESSAGE" "S1" hiBody)).1⟩

/-- C6: on an event of type CONNECT, `handler` returns what `handleConnect`
returns, leaves the table `handleConnect` leaves and issues the calls it
issues; its log is the two lines `handler` writes on entry followed by the log
of `handleConnect`. The same holds for DISCONNECT and `handleDisconnect`. The
body is not decoded on either path: replacing the body and the decoder by any
other leaves return value, table and calls unchanged. -/
theorem C6_transport_type_first (env : Env) (tbl : Table) (c body : String) :
    (handler env tbl ⟨⟨"CONNECT", c⟩, body⟩ =
      { handleConnect env tbl ⟨⟨"CONNECT", c⟩, body⟩ with
        logs := [⟨"Received event: %+v", [.req ⟨⟨"CONNECT", c⟩, body⟩]⟩,
                 ⟨"Received request body: %s", [.str body]⟩] ++
          (handleConnect env tbl ⟨⟨"CONNECT", c⟩, body⟩).logs }) ∧
    (handler env tbl ⟨⟨"DISCONNECT", c⟩, body⟩ =
      { handleDisconnect env tbl ⟨⟨"DISCONNECT", c⟩, body⟩ with
        logs := [⟨"Received event: %+v", [.req ⟨⟨"DISCONNECT", c⟩, body⟩]⟩,
                 ⟨"Received request body: %s", [.str body]⟩] ++
          (handleDisconnect env tbl ⟨⟨"DISCONNECT", c⟩, body⟩).logs }) ∧
    (∀ (u : String → Except Error Message) (body2 : String),
      (handler { env with unmarshal := u } tbl ⟨⟨"CONNECT", c⟩, body2⟩).response =
        (handleConnect env tbl ⟨⟨"CONNECT", c⟩, body⟩).response ∧
      (handler { env with unmarshal := u } tbl ⟨⟨"CONNECT", c⟩, body2⟩).err =
        (handleConnect env tbl ⟨⟨"CONNECT", c⟩, body⟩).err ∧
      (handler { env with unmarshal := u } tbl ⟨⟨"CONNECT", c⟩, body2⟩).table =
        (handleConnect env tbl ⟨⟨"CONNECT", c⟩, body⟩).table ∧
      (handler { env with unmarshal := u } tbl ⟨⟨"CONNECT", c⟩, body2⟩).calls =
        (handleConnect env tbl ⟨⟨"CONNECT", c⟩, body⟩).calls) ∧
    (∀ (u : String → Except Error Message) (body2 : String),
      (handler { env with unmarshal := u } tbl ⟨⟨"DISCONNECT", c⟩, body2⟩).response =
        (handleDisconnect env tbl ⟨⟨"DISCONNECT", c⟩, body⟩).response ∧
      (handler { env with unmarshal := u } tbl ⟨⟨"DISCONNECT", c⟩, body2⟩).err =
        (handleDisconnect env tbl ⟨⟨"DISCONNECT", c⟩, body⟩).err ∧
      (handler { env with unmarshal := u } tbl ⟨⟨"DISCONNECT", c⟩, body2⟩).table =
        (handleDisconnect env tbl ⟨⟨"DISCONNECT", c⟩, body⟩).table ∧
      (handler { env with unmarshal := u } tbl ⟨⟨"DISCONNECT", c⟩, body2⟩).calls =
        (handleDisconnect env tbl ⟨⟨"DISCONNECT", c⟩, body⟩).calls) := by
  refine ⟨?_, ?_, ?_, ?_⟩
  · simp [handler]
  · simp [handler]
  · intro u body2
    cases h : env.ddbFault (.putItem env.tableName ⟨c⟩) <;>
      simp [handler, handleConnect, PutItem, h]
  · intro u body2
    cases h : env.ddbFault (.deleteItem env.tableName c) <;>
      simp [handler, handleDisconnect, DeleteItem, h]

/-- Instance of C6: a CONNECT event whose body names the action `disconnect`,
and one whose body is not JSON, are handled as `handleConnect` handles them. -/
theorem C6_transport_type_first_witness :
    (handler sampleEnv [⟨"S2"⟩] (mkReq "CONNECT" "S1" disconnectBody)).table =
      [⟨"S2"⟩, ⟨"S1"⟩] ∧
    (handler sampleEnv [⟨"S2"⟩] (mkReq "CONNECT" "S1" "not json")).response =
      (handleConnect sampleEnv [⟨"S2"⟩] (mkReq "CONNECT" "S1" disconnectBody)).response ∧
    (handler sampleEnv [⟨"S2"⟩] (mkReq "CONNECT" "S1" "not json")).table =
      (handleConnect sampleEnv [⟨"S2"⟩] (mkReq "CONNECT" "S1" disconnectBody)).table :=
  have h := (C6_transport_type_first sampleEnv [⟨"S2"⟩] "S1" disconnectBody).2.2.1
    sampleUnmarshal "not json"
  ⟨by decide, h.1, h.2.2.1⟩

/-- C7: when the put succeeds, attaching session S twice leaves the table equal
to the table after attaching S once; that table holds exactly one item with key
S and every item with another key as often as before; both calls return status
200 with a nil error. -/
theorem C7_attach_idempotent (env : Env) (tbl : Table)
    (req1 req2 : APIGatewayWebsocketProxyRequest)
    (hid : req2.RequestContext.ConnectionID = req1.RequestContext.ConnectionID)
    (hput : env.ddbFault (.putItem env.tableName ⟨req1.RequestContext.ConnectionID⟩) = none) :
    (handleConnect env tbl req1).response.StatusCode = 200 ∧
    (handleConnect env tbl req1).err = none ∧
    (handleConnect env (handleConnect env tbl req1).table req2).response.StatusCode = 200 ∧
    (handleConnect env (handleConnect env tbl req1).table req2).err = none ∧
    (handleConnect env (handleConnect env tbl req1).table req2).table =
      (handleConnect env tbl req1).table ∧
    ((handleConnect env (handleConnect env tbl req1).table req2).table.filter
      (fun it => it.connectionId = req1.RequestContext.ConnectionID)).length = 1 ∧
    (∀ it : Item, it.connectionId ≠ req1.RequestContext.ConnectionID →
      (handleConnect env (handleConnect env tbl req1).table req2).table.count it =
        tbl.count it) := by
  have h1 : handleConnect env tbl req1 =
      { response := ⟨200⟩, err := none,
        table := tbl.filter (fun it => it.connectionId != req1.RequestContext.ConnectionID)
          ++ [⟨req1.RequestContext.ConnectionID⟩],
        calls := [.putItem env.tableName ⟨req1.RequestContext.ConnectionID⟩],
        logs := [⟨"ConnectionID: %s", [.str req1.RequestContext.ConnectionID]⟩] } := by
    simp [handleConnect, PutItem, hput]
  have h2 : (handleConnect env (handleConnect env tbl req1).table req2) =
      { response := ⟨200⟩, err := none,
        table := tbl.filter (fun it => it.connectionId != req1.RequestContext.ConnectionID)
          ++ [⟨req1.RequestContext.ConnectionID⟩],
        calls := [.putItem env.tableName ⟨req1.RequestContext.ConnectionID⟩],
        logs := [⟨"ConnectionID: %s", [.str req1.RequestContext.ConnectionID]⟩] } := by
    rw [h1]
    simp [handleConnect, PutItem, hput, hid, List.filter_append, List.filter_filter]
  rw [h2, h1]
  refine ⟨rfl, rfl, rfl, rfl, rfl, ?_, ?_⟩
  · simp [List.filter_append, List.filter_filter]
  · intro it hne
    have hne2 : it ≠ (⟨req1.RequestContext.ConnectionID⟩ : Item) := by
      intro h; apply hne; rw [h]
    simp only [List.count_append]
    rw [List.count_filter (by simpa using hne)]
    simp [List.count_cons, hne2.symm]

/-- Witness for C7: S1 attached twice to a table that already holds S1 and S2. -/
theorem C7_attach_idempotent_witness :
    (mkReq "CONNECT" "S1" "again").RequestContext.ConnectionID =
      (mkReq "CONNECT" "S1" "").RequestContext.ConnectionID ∧
    sampleEnv.ddbFault (.putItem sampleEnv.tableName
      ⟨(mkReq "CONNECT" "S1" "").RequestContext.ConnectionID⟩) = none ∧
    (handleConnect sampleEnv [⟨"S1"⟩, ⟨"S2"⟩] (mkReq "CONNECT" "S1" "")).table =
      [⟨"S2"⟩, ⟨"S1"⟩] ∧
    (handleConnect sampleEnv
      (handleConnect sampleEnv [⟨"S1"⟩, ⟨"S2"⟩] (mkReq "CONNECT" "S1" "")).table
      (mkReq "CONNECT" "S1" "again")).table =
      (handleConnect sampleEnv [⟨"S1"⟩, ⟨"S2"⟩] (mkReq "CONNECT" "S1" "")).table :=
  ⟨rfl, rfl, by decide,
    (C7_attach_idempotent sampleEnv [⟨"S1"⟩, ⟨"S2"⟩] (mkReq "CONNECT" "S1" "")
      (mkReq "CONNECT" "S1" "again") rfl rfl).2.2.2.2.1⟩

/-- C8: when the delete succeeds, detaching a session that has no item in the
table returns status 200 with a nil error and leaves the table as it was; and
on any table, a second detach of the same session returns what the first
returned and leaves the table the first left. -/
theorem C8_detach_idempotent (env : Env) (tbl : Table)
    (req1 req2 : APIGatewayWebsocketProxyRequest)
    (hid : req2.RequestContext.ConnectionID = req1.RequestContext.ConnectionID)
    (hdel : env.ddbFault (.deleteItem env.tableName req1.RequestContext.ConnectionID) = none) :
    ((∀ it ∈ tbl, it.connectionId ≠ req1.RequestContext.ConnectionID) →
      (handleDisconnect env tbl req1).response.StatusCode = 200 ∧
      (handleDisconnect env tbl req1).err = none ∧
      (handleDisconnect env tbl req1).table = tbl) ∧
    (handleDisconnect env tbl req1).response.StatusCode = 200 ∧
    (handleDisconnect env tbl req1).err = none ∧
    (handleDisconnect env (handleDisconnect env tbl req1).table req2).response =
      (handleDisconnect env tbl req1).response ∧
    (handleDisconnect env (handleDisconnect env tbl req1).table req2).err =
      (handleDisconnect env tbl req1).err ∧
    (handleDisconnect env (handleDisconnect env tbl req1).table req2).table =
      (handleDisconnect env tbl req1).table := by
  refine ⟨?_, ?_, ?_, ?_, ?_, ?_⟩
  · intro habs
    have hfilter : tbl.filter
        (fun it => it.connectionId != req1.RequestContext.ConnectionID) = tbl := by
      rw [List.filter_eq_self]
      intro it hit
      simpa using habs it hit
    simp [handleDisconnect, DeleteItem, hdel, hfilter]
  all_goals simp [handleDisconnect, DeleteItem, hdel, hid, List.filter_filter]

/-- Witness for C8: S3 detached from a table that holds S1 and S2. -/
theorem C8_detach_idempotent_witness :
    (mkReq "DISCONNECT" "S3" "").RequestContext.ConnectionID =
      (mkReq "DISCONNECT" "S3" "").RequestContext.ConnectionID ∧
    sampleEnv.ddbFault (.deleteItem sampleEnv.tableName
      (mkReq "DISCONNECT" "S3" "").RequestContext.ConnectionID) = none ∧
    (∀ it ∈ ([⟨"S1"⟩, ⟨"S2"⟩] : Table),
      it.connectionId ≠ (mkReq "DISCONNECT" "S3" "").RequestContext.ConnectionID) ∧
    (handleDisconnect sampleEnv [⟨"S1"⟩, ⟨"S2"⟩] (mkReq "DISCONNECT" "S3" "")).response.StatusCode
      = 200 ∧
    (handleDisconnect sampleEnv [⟨"S1"⟩, ⟨"S2"⟩] (mkReq "DISCONNECT" "S3" "")).err = none ∧
    (handleDisconnect sampleEnv [⟨"S1"⟩, ⟨"S2"⟩] (mkReq "DISCONNECT" "S3" "")).table =
      [⟨"S1"⟩, ⟨"S2"⟩] :=
  ⟨rfl, rfl, by decide,
    (C8_detach_idempotent sampleEnv [⟨"S1"⟩, ⟨"S2"⟩] (mkReq "DISCONNECT" "S3" "")
      (mkReq "DISCONNECT" "S3" "") rfl rfl).1 (by decide)⟩

/-- C10 as stated fails: a data event whose body decodes to action `connect`
(none of `attach`, `publish`, `detach`) writes the table, and one with action
`message` makes a delivery attempt. -/
theorem C10_unknown_action_counterexample :
    (mkReq "MESSAGE" "S1" connectBody).RequestContext.EventType ≠ "CONNECT" ∧
    (mkReq "MESSAGE" "S1" connectBody).RequestContext.EventType ≠ "DISCONNECT" ∧
    sampleEnv.unmarshal (mkReq "MESSAGE" "S1" connectBody).Body =
      .ok ⟨"connect", "", "", ""⟩ ∧
    ("connect" ≠ "attach" ∧ "connect" ≠ "publish" ∧ "connect" ≠ "detach") ∧
    (handler sampleEnv [] (mkReq "MESSAGE" "S1" connectBody)).table = [⟨"S1"⟩] ∧
    (handler sampleEnv [] (mkReq "MESSAGE" "S1" connectBody)).table ≠ [] ∧
    sampleEnv.unmarshal (mkReq "MESSAGE" "S1" hiBody).Body =
      .ok ⟨"message", "", "hi", ""⟩ ∧
    ("message" ≠ "attach" ∧ "message" ≠ "publish" ∧ "message" ≠ "detach") ∧
    (deliveries (handler sampleEnv [⟨"S2"⟩] (mkReq "MESSAGE" "S1" hiBody)).calls).length = 1 :=
  ⟨by decide, by decide, rfl, by decide, by decide, by decide, rfl, by decide, by decide⟩

/-- C10, amended: for a data event (event type neither CONNECT nor DISCONNECT)
whose body decodes to a message whose action is none of `connect`, `message`,
`disconnect`, `handler` takes the default path: status 200, nil error, the
table unchanged and no collaborator call at all, hence no delivery attempt. -/
theorem C10_unknown_action_default (env : Env) (tbl : Table)
    (req : APIGatewayWebsocketProxyRequest) (msg : Message)
    (h1 : req.RequestContext.EventType ≠ "CONNECT")
    (h2 : req.RequestContext.EventType ≠ "DISCONNECT")
    (hparse : env.unmarshal req.Body = .ok msg)
    (ha : msg.Action ≠ "connect") (hb : msg.Action ≠ "message")
    (hc : msg.Action ≠ "disconnect") :
    (handler env tbl req).response.StatusCode = 200 ∧
    (handler env tbl req).err = none ∧
    (handler env tbl req).table = tbl ∧
    (handler env tbl req).calls = [] ∧
    deliveries (handler env tbl req).calls = [] ∧
    (handler env tbl req).response = (handleDefault env tbl req).response ∧
    (handler env tbl req).err = (handleDefault env tbl req).err := by
  simp [handler, h1, h2, hparse, ha, hb, hc, handleDefault, deliveries]

/-- Witness for the amended C10: action `frobnicate` on a data event, and
action `attach`, which is not an action of the switch either. -/
theorem C10_unknown_action_default_witness :
    sampleEnv.unmarshal (mkReq "MESSAGE" "S1" frobnicateBody).Body =
      .ok ⟨"frobnicate", "", "", ""⟩ ∧
    (handler sampleEnv [⟨"S1"⟩, ⟨"S2"⟩]
      (mkReq "MESSAGE" "S1" frobnicateBody)).response.StatusCode = 200 ∧
    (handler sampleEnv [⟨"S1"⟩, ⟨"S2"⟩] (mkReq "MESSAGE" "S1" frobnicateBody)).err = none ∧
    (handler sampleEnv [⟨"S1"⟩, ⟨"S2"⟩] (mkReq "MESSAGE" "S1" frobnicateBody)).table =
      [⟨"S1"⟩, ⟨"S2"⟩] ∧
    (handler sampleEnv [⟨"S1"⟩, ⟨"S2"⟩] (mkReq "MESSAGE" "S1" frobnicateBody)).calls = [] ∧
    (handler sampleEnv [⟨"S1"⟩, ⟨"S2"⟩] (mkReq "MESSAGE" "S3" attachBody)).table =
      [⟨"S1"⟩, ⟨"S2"⟩] :=
  have h := C10_unknown_action_default sampleEnv [⟨"S1"⟩, ⟨"S2"⟩]
    (mkReq "MESSAGE" "S1" frobnicateBody) ⟨"frobnicate", "", "", ""⟩
    (by decide) (by decide) rfl (by decide) (by decide) (by decide)
  have h2 := C10_unknown_action_default sampleEnv [⟨"S1"⟩, ⟨"S2"⟩]
    (mkReq "MESSAGE" "S3" attachBody) ⟨"attach", "", "", ""⟩
    (by decide) (by decide) rfl (by decide) (by decide) (by decide)
  ⟨rfl, h.1, h.2.1, h.2.2.1, h.2.2.2.1, h2.2.2.1⟩

/-! ## Lifecycle sequences -/

theorem runLifecycle_append (env : Env) (tbl : Table) (evs : List Lifecycle)
    (ev : Lifecycle) :
    runLifecycle env tbl (evs ++ [ev]) =
      (lifecycleStep env (runLifecycle env tbl evs) ev).table := by
  induction evs generalizing tbl with
  | nil => rfl
  | cons e rest ih => simp [runLifecycle, ih]

theorem attachedAfter_append (evs : List Lifecycle) (ev : Lifecycle) (id : String) :
    attachedAfter (evs ++ [ev]) id =
      if ev.session = id then ev.isAttach else attachedAfter evs id := by
  by_cases h : ev.session = id <;>
    simp [attachedAfter, List.reverse_append, List.find?_cons, h]

/-- After a sequence of lifecycle events whose storage calls succeed, started
on the empty table, the table has no duplicate and holds exactly the sessions
whose most recent event is an attach. -/
theorem runLifecycle_invariant (env : Env) (evs : List Lifecycle)
    (hok : ∀ ev ∈ evs, env.ddbFault (ev.storageCall env.tableName) = none) :
    (runLifecycle env [] evs).Nodup ∧
    ∀ id : String, (⟨id⟩ : Item) ∈ runLifecycle env [] evs ↔ attachedAfter evs id = true := by
  induction evs using List.reverseRecOn with
  | nil => simp [runLifecycle, attachedAfter]
  | append_singleton evs ev ih =>
    have hok1 : ∀ e ∈ evs, env.ddbFault (e.storageCall env.tableName) = none :=
      fun e he => hok e (List.mem_append_left _ he)
    have hev : env.ddbFault (ev.storageCall env.tableName) = none :=
      hok ev (List.mem_append_right _ (List.mem_singleton_self ev))
    obtain ⟨hnd, hmem⟩ := ih hok1
    rw [runLifecycle_append]
    cases ev with
    | attach req =>
      simp only [Lifecycle.storageCall] at hev
      simp only [lifecycleStep, handleConnect, PutItem, hev]
      constructor
      · rw [List.nodup_append]
        refine ⟨hnd.filter _, List.nodup_singleton _, ?_⟩
        intro it h1 h2
        simp at h1 h2
        exact h1.2 (by rw [h2])
      · intro id
        rw [attachedAfter_append]
        by_cases h : req.RequestContext.ConnectionID = id
        · subst h
          simp [Lifecycle.session, Lifecycle.isAttach]
        · have h3 : ¬ id = req.RequestContext.ConnectionID := fun h4 => h h4.symm
          simp [Lifecycle.session, h, h3, hmem id]
    | detach req =>
      simp only [Lifecycle.storageCall] at hev
      simp only [lifecycleStep, handleDisconnect, DeleteItem, hev]
      constructor
      · exact hnd.filter _
      · intro id
        rw [attachedAfter_append]
        by_cases h : req.RequestContext.ConnectionID = id
        · subst h
          simp [Lifecycle.session, Lifecycle.isAttach]
        · have h3 : ¬ id = req.RequestContext.ConnectionID := fun h4 => h h4.symm
          simp [Lifecycle.session, h, h3, hmem id]

/-- C2 as stated fails. With a result page of two items and S1, S2, S3
attached, the most recent lifecycle event of S3 is an attach, every storage call
succeeds and the body parses, yet the publish makes no attempt to S3. With S1
attached, a publish whose body does not parse, and a publish whose scan fails,
make no attempt at all. -/
theorem C2_publish_reaches_attached_counterexample :
    ((∀ ev ∈ [Lifecycle.attach (mkReq "CONNECT" "S1" ""),
          Lifecycle.attach (mkReq "CONNECT" "S2" ""),
          Lifecycle.attach (mkReq "CONNECT" "S3" "")],
        smallPageEnv.ddbFault (ev.storageCall smallPageEnv.tableName) = none) ∧
      smallPageEnv.unmarshal (mkReq "MESSAGE" "S1" hiBody).Body =
        .ok ⟨"message", "", "hi", ""⟩ ∧
      smallPageEnv.ddbFault (.scan smallPageEnv.tableName) = none ∧
      attachedAfter
        [.attach (mkReq "CONNECT" "S1" ""), .attach (mkReq "CONNECT" "S2" ""),
         .attach (mkReq "CONNECT" "S3" "")] "S3" = true ∧
      deliveryTargets (handleMessage smallPageEnv
          (runLifecycle smallPageEnv []
            [.attach (mkReq "CONNECT" "S1" ""), .attach (mkReq "CONNECT" "S2" ""),
             .attach (mkReq "CONNECT" "S3" "")])
          (mkReq "MESSAGE" "S1" hiBody)).calls = ["S1", "S2"] ∧
      "S3" ∉ deliveryTargets (handleMessage smallPageEnv
          (runLifecycle smallPageEnv []
            [.attach (mkReq "CONNECT" "S1" ""), .attach (mkReq "CONNECT" "S2" ""),
             .attach (mkReq "CONNECT" "S3" "")])
          (mkReq "MESSAGE" "S1" hiBody)).calls) ∧
    (attachedAfter [.attach (mkReq "CONNECT" "S1" "")] "S1" = true ∧
      deliveryTargets (handleMessage sampleEnv
          (runLifecycle sampleEnv [] [.attach (mkReq "CONNECT" "S1" "")])
          (mkReq "MESSAGE" "S1" "not json")).calls = [] ∧
      scanDownEnv.ddbFault
        ((Lifecycle.attach (mkReq "CONNECT" "S1" "")).storageCall scanDownEnv.tableName) =
        none ∧
      deliveryTargets (handleMessage scanDownEnv
          (runLifecycle scanDownEnv [] [.attach (mkReq "CONNECT" "S1" "")])
          (mkReq "MESSAGE" "S1" hiBody)).calls = []) :=
  ⟨⟨fun _ _ => rfl, rfl, rfl, by decide, by decide, by decide⟩,
    ⟨by decide, by decide, rfl, by decide⟩⟩

/-- C2, amended: starting from the empty table, after any sequence of attach
and detach events whose storage calls succeed, a publish whose body parses and
whose scan succeeds attempts delivery to the sessions of the first result page
of the scan: once each, and only to sessions whose most recent lifecycle event
is an attach. When that page holds the whole table, the publish attempts
delivery to exactly the sessions whose most recent lifecycle event is an
attach, once each, and to no other session. -/
theorem C2_publish_reaches_attached (env : Env) (evs : List Lifecycle)
    (req : APIGatewayWebsocketProxyRequest) (msg0 : Message)
    (hok : ∀ ev ∈ evs, env.ddbFault (ev.storageCall env.tableName) = none)
    (hparse : env.unmarshal req.Body = .ok msg0)
    (hscan : env.ddbFault (.scan env.tableName) = none) :
    deliveryTargets (handleMessage env (runLifecycle env [] evs) req).calls =
      ((runLifecycle env [] evs).take (env.scanPage (runLifecycle env [] evs))).map
        Item.connectionId ∧
    (deliveryTargets (handleMessage env (runLifecycle env [] evs) req).calls).Nodup ∧
    (∀ id : String,
      id ∈ deliveryTargets (handleMessage env (runLifecycle env [] evs) req).calls →
        attachedAfter evs id = true) ∧
    ((runLifecycle env [] evs).length ≤ env.scanPage (runLifecycle env [] evs) →
      ∀ id : String,
        id ∈ deliveryTargets (handleMessage env (runLifecycle env [] evs) req).calls ↔
          attachedAfter evs id = true) := by
  obtain ⟨hnd, hmem⟩ := runLifecycle_invariant env evs hok
  obtain ⟨data, _, _, hout, _⟩ :=
    handleMessage_ok env (runLifecycle env [] evs) req msg0
      ((runLifecycle env [] evs).take (env.scanPage (runLifecycle env [] evs))) hparse
      ((Scan_ok_iff _ _ _ _).2 ⟨hscan, rfl⟩)
  have htargets :
      deliveryTargets (handleMessage env (runLifecycle env [] evs) req).calls =
        ((runLifecycle env [] evs).take (env.scanPage (runLifecycle env [] evs))).map
          Item.connectionId := by
    rw [hout]
    simp only [fanOut_calls, deliveryTargets]
    have h := deliveries_map_post data
      ((runLifecycle env [] evs).take (env.scanPage (runLifecycle env [] evs)))
    simp only [deliveries, List.filterMap_cons] at h ⊢
    rw [h]
    simp [Function.comp_def]
  have hinj : Function.Injective Item.connectionId := by
    intro a b hab
    cases a; cases b; simp_all
  have hsub : ∀ id : String,
      id ∈ ((runLifecycle env [] evs).take (env.scanPage (runLifecycle env [] evs))).map
        Item.connectionId → attachedAfter evs id = true := by
    intro id hid
    rw [← hmem id]
    simp only [List.mem_map] at hid
    obtain ⟨it, hit, rfl⟩ := hid
    exact List.mem_of_mem_take hit
  rw [htargets]
  refine ⟨rfl, ?_, hsub, ?_⟩
  · exact (hnd.sublist (List.take_sublist _ _)).map hinj
  · intro hfit id
    constructor
    · exact hsub id
    · intro h
      rw [List.take_of_length_le hfit]
      exact List.mem_map.2 ⟨⟨id⟩, (hmem id).2 h, rfl⟩

/-- Witness for the amended C2, the end-to-end scenario: after attach(S1),
attach(S2) a publish of `hi` from S1 is delivered to S1 and S2 with sender S1
and content `hi`; after detach(S1) a publish of `bye` from S2 makes exactly one
attempt, to S2. -/
theorem C2_publish_reaches_attached_witness :
    (∀ ev ∈ [Lifecycle.attach (mkReq "CONNECT" "S1" ""),
        Lifecycle.attach (mkReq "CONNECT" "S2" ""),
        Lifecycle.detach (mkReq "DISCONNECT" "S1" "")],
      sampleEnv.ddbFault (ev.storageCall sampleEnv.tableName) = none) ∧
    sampleEnv.unmarshal (mkReq "MESSAGE" "S2" byeBody).Body =
      .ok ⟨"message", "", "bye", ""⟩ ∧
    sampleEnv.ddbFault (.scan sampleEnv.tableName) = none ∧
    (runLifecycle sampleEnv []
        [.attach (mkReq "CONNECT" "S1" ""), .attach (mkReq "CONNECT" "S2" ""),
         .detach (mkReq "DISCONNECT" "S1" "")]).length ≤
      sampleEnv.scanPage (runLifecycle sampleEnv []
        [.attach (mkReq "CONNECT" "S1" ""), .attach (mkReq "CONNECT" "S2" ""),
         .detach (mkReq "DISCONNECT" "S1" "")]) ∧
    deliveries (handleMessage sampleEnv
        (runLifecycle sampleEnv []
          [.attach (mkReq "CONNECT" "S1" ""), .attach (mkReq "CONNECT" "S2" "")])
        (mkReq "MESSAGE" "S1" hiBody)).calls =
      [("S1", "\x7b\"action\":\"message\",\"connectionId\":\"S1\",\"content\":\"hi\",\"timestamp\":\"1970-01-01T00:00:00Z\"\x7d"),
       ("S2", "\x7b\"action\":\"message\",\"connectionId\":\"S1\",\"content\":\"hi\",\"timestamp\":\"1970-01-01T00:00:00Z\"\x7d")] ∧
    deliveryTargets (handleMessage sampleEnv
        (runLifecycle sampleEnv []
          [.attach (mkReq "CONNECT" "S1" ""), .attach (mkReq "CONNECT" "S2" ""),
           .detach (mkReq "DISCONNECT" "S1" "")])
        (mkReq "MESSAGE" "S2" byeBody)).calls = ["S2"] ∧
    (∀ id : String,
      id ∈ deliveryTargets (handleMessage sampleEnv
        (runLifecycle sampleEnv []
          [.attach (mkReq "CONNECT" "S1" ""), .attach (mkReq "CONNECT" "S2" ""),
           .detach (mkReq "DISCONNECT" "S1" "")])
        (mkReq "MESSAGE" "S2" byeBody)).calls ↔
      attachedAfter
        [.attach (mkReq "CONNECT" "S1" ""), .attach (mkReq "CONNECT" "S2" ""),
         .detach (mkReq "DISCONNECT" "S1" "")] id = true) :=
  ⟨fun _ _ => rfl, rfl, rfl, by decide, by decide, by decide,
    (C2_publish_reaches_attached sampleEnv
      [.attach (mkReq "CONNECT" "S1" ""), .attach (mkReq "CONNECT" "S2" ""),
       .detach (mkReq "DISCONNECT" "S1" "")]
      (mkReq "MESSAGE" "S2" byeBody) ⟨"message", "", "bye", ""⟩
      (fun _ _ => rfl) rfl rfl).2.2.2 (by decide)⟩

end WsChat
